import Mathlib

/-!
Verification of the two HTTP route handlers of the autogen-studio excerpt:
the invoke handler (`web/routes/invoke.py`) and the model-list handler
(`web/routes/models.py`).

The handlers are embedded shallowly.  The delegated asynchronous call
`team_manager.run(task, team_config)` is opaque to this excerpt, so it is
modelled as an oracle function from the request's fields to a run outcome;
the outcome distinguishes a normal return, a raised `Exception` (which the
handler's `except Exception` clause catches), and a raised `BaseException`
that is not an `Exception` (e.g. `asyncio.CancelledError`), which that
clause does not catch.
-/

namespace AutogenRoutes

/-- Modelled from the spec: the response envelope
`{ message: string, status: boolean, data: optional arbitrary value }`
(the `Response` class of `autogenstudio.datamodel` is not part of this
excerpt).  `α` stands for the arbitrary type of the payload. -/
structure Response (α : Type) where
  message : String
  status : Bool
  data : Option α
  deriving DecidableEq

/-- The request body of the invoke endpoint, from `invoke.py`:
`task: str`, `team_config: dict`.  The config's shape is irrelevant to the
handler, so it is a type parameter `τ`. -/
structure InvokeTaskRequest (τ : Type) where
  task : String
  team_config : τ

/-- Possible outcomes of the awaited `team_manager.run` call, as seen by the
handler's `try`/`except Exception` block:
normal return of a result, a raised `Exception` with the given `str(e)`,
or a raised non-`Exception` `BaseException` with the given text. -/
inductive RunOutcome (α : Type) where
  | ok (r : α)
  | exc (msg : String)
  | fatal (msg : String)
  deriving DecidableEq

/-- Embedding of the `invoke` handler of `invoke.py`.  `run` is the oracle
for `team_manager.run`; `Except.error` models an uncaught error escaping
the handler.  The body mirrors the source: the envelope is first built with
`message="Task successfully completed"`, `status=True`, `data=None`; a
normal run sets `data` to the result; a caught `Exception` overwrites
`message` with `str(e)` and sets `status=False`; anything else propagates. -/
def invoke {α τ : Type} (run : String → τ → RunOutcome α)
    (request : InvokeTaskRequest τ) : Except String (Response α) :=
  let response : Response α :=
    { message := "Task successfully completed", status := true, data := none }
  match run request.task request.team_config with
  | RunOutcome.ok r => Except.ok { response with data := some r }
  | RunOutcome.exc m => Except.ok { response with message := m, status := false }
  | RunOutcome.fatal m => Except.error m

/-- Python's `list(d.keys())` on an insertion-ordered dict, with the dict
modelled as an association list. -/
def dict_keys {β : Type} (d : List (String × β)) : List String :=
  d.map Prod.fst

/-- Embedding of the `list_models` handler of `models.py`.  The three
imported `_MODEL_INFO` lookup tables (`anthropic`, `ollama`, `openai`) are
outside this excerpt, so they are parameters; their value type is `β`.
The body is the source's dict literal: four keys, with both `openAI` and
`azureOpenAI` built from `list(openai_models.keys())`. -/
def list_models {β : Type}
    (anthropic_models ollama_models openai_models : List (String × β)) :
    List (String × List String) :=
  [("anthropic", dict_keys anthropic_models),
   ("ollama", dict_keys ollama_models),
   ("openAI", dict_keys openai_models),
   ("azureOpenAI", dict_keys openai_models)]

/-- The model-list handler as a state transformer over an arbitrary server
state `σ` (the process-wide state the web app may hold).  The source body
reads no mutable state and writes none, so the embedding returns the
catalog and the state unchanged. -/
def list_models_st {β σ : Type}
    (anthropic_models ollama_models openai_models : List (String × β))
    (s : σ) : List (String × List String) × σ :=
  (list_models anthropic_models ollama_models openai_models, s)

/-- The model-list handler in the error-aware embedding: every operation in
the source body (dict-literal construction and `list(d.keys())`) is total
and cannot raise, so the embedded handler always returns `Except.ok`. -/
def list_modelsE {β σ : Type}
    (anthropic_models ollama_models openai_models : List (String × β))
    (s : σ) : Except String (List (String × List String) × σ) :=
  Except.ok (list_models_st anthropic_models ollama_models openai_models s)

/-- Modelled from the spec: a catalog "sourced from four pre-populated
lookup tables (one per provider/vendor)", each provider's value being the
ordered list of keys of that provider's own lookup table.  This is the
spec's shape, to be compared with `list_models`, which the source builds
from only three tables. -/
def list_models_spec {β : Type}
    (anthropic ollama openai azure : List (String × β)) :
    List (String × List String) :=
  [("anthropic", dict_keys anthropic),
   ("ollama", dict_keys ollama),
   ("openAI", dict_keys openai),
   ("azureOpenAI", dict_keys azure)]

/-- A concrete anthropic lookup table used for concrete evaluations. -/
def ex_anthropic : List (String × Nat) := [("claude-3-5-sonnet", 0)]

/-- A concrete ollama lookup table used for concrete evaluations. -/
def ex_ollama : List (String × Nat) := [("llama3", 1)]

/-- A concrete openai lookup table used for concrete evaluations. -/
def ex_openai : List (String × Nat) := [("gpt-4o", 2)]

/-- A concrete candidate azure table whose keys differ from the openai
table's keys, used to test the spec's four-own-tables shape. -/
def ex_azure : List (String × Nat) := [("azure-gpt", 3)]

/-- C1: if the delegated `team_manager.run(task, team_config)` call succeeds
and returns result `r`, the invoke handler returns an envelope with
`status=true`, `message="Task successfully completed"`, and `data` equal to
`r`. -/
theorem invoke_success_envelope {α τ : Type} (run : String → τ → RunOutcome α)
    (request : InvokeTaskRequest τ) (r : α)
    (h : run request.task request.team_config = RunOutcome.ok r) :
    invoke run request =
      Except.ok { message := "Task successfully completed", status := true,
                  data := some r } := by
  simp [invoke, h]

/-- Witness for C1 at a concrete request with a run returning `7`. -/
theorem invoke_success_envelope_witness :
    (fun (_ : String) (_ : Unit) => RunOutcome.ok (7 : Nat)) "t" () =
        RunOutcome.ok 7 ∧
      invoke (fun _ _ => RunOutcome.ok (7 : Nat)) ⟨"t", ()⟩ =
        Except.ok { message := "Task successfully completed", status := true,
                    data := some 7 } :=
  ⟨rfl, invoke_success_envelope (fun _ _ => RunOutcome.ok 7) ⟨"t", ()⟩ 7 rfl⟩

/-- C2: if the delegated run raises an `Exception` `e`, the invoke handler
returns an envelope with `status=false`, `message=str(e)` and `data` unset;
every caught exception maps to the same envelope shape, so no distinction
between error kinds is preserved. -/
theorem invoke_exception_envelope {α τ : Type} (run : String → τ → RunOutcome α)
    (request : InvokeTaskRequest τ) (m : String)
    (h : run request.task request.team_config = RunOutcome.exc m) :
    invoke run request =
      Except.ok { message := m, status := false, data := (none : Option α) } := by
  simp [invoke, h]

/-- Witness for C2 at a concrete request whose run raises with text
`boom`. -/
theorem invoke_exception_envelope_witness :
    (fun (_ : String) (_ : Unit) => (RunOutcome.exc ("boom") : RunOutcome Nat))
        "t" () = RunOutcome.exc ("boom") ∧
      invoke (fun _ _ => (RunOutcome.exc ("boom") : RunOutcome Nat)) ⟨"t", ()⟩ =
        Except.ok { message := "boom", status := false, data := none } :=
  ⟨rfl,
    invoke_exception_envelope (fun _ _ => RunOutcome.exc ("boom")) ⟨"t", ()⟩
      ("boom") rfl⟩

/-- C3 counterexample: at the concrete request `⟨"t", ()⟩` whose run fails
with a non-`Exception` `BaseException` (modelled text `cancelled`), the
invoke handler does not return a response envelope: the error escapes. -/
theorem invoke_not_always_envelope :
    ¬ ∃ env : Response Nat,
      invoke (fun (_ : String) (_ : Unit) => RunOutcome.fatal ("cancelled"))
        ⟨"t", ()⟩ = Except.ok env := by
  rintro ⟨env, h⟩
  simp [invoke] at h

/-- C3 amended: for every request, either the invoke handler returns the
response envelope (success or soft failure), or the delegated run failed
with a non-`Exception` error and that error propagates out uncaught. -/
theorem invoke_envelope_or_propagates {α τ : Type}
    (run : String → τ → RunOutcome α) (request : InvokeTaskRequest τ) :
    (∃ env, invoke run request = Except.ok env) ∨
      (∃ m, run request.task request.team_config = RunOutcome.fatal m ∧
        invoke run request = Except.error m) := by
  unfold invoke
  cases h : run request.task request.team_config with
  | ok r => exact Or.inl ⟨_, rfl⟩
  | exc m => exact Or.inl ⟨_, rfl⟩
  | fatal m => exact Or.inr ⟨m, rfl, rfl⟩

/-- C9: invariant of every envelope the invoke handler returns: a `true`
status comes only with the exact message `Task successfully completed`, and
a `false` status comes only with `data = none`. -/
theorem invoke_envelope_invariant {α τ : Type} (run : String → τ → RunOutcome α)
    (request : InvokeTaskRequest τ) (env : Response α)
    (h : invoke run request = Except.ok env) :
    (env.status = true → env.message = "Task successfully completed") ∧
      (env.status = false → env.data = none) := by
  unfold invoke at h
  cases hr : run request.task request.team_config with
  | ok r =>
      rw [hr] at h
      cases h
      exact ⟨fun _ => rfl, by simp⟩
  | exc m =>
      rw [hr] at h
      cases h
      exact ⟨by simp, fun _ => rfl⟩
  | fatal m =>
      rw [hr] at h
      exact absurd h (by simp)

/-- Witness for C9 at a concrete successful request. -/
theorem invoke_envelope_invariant_witness :
    (({ message := "Task successfully completed", status := true,
        data := some 7 } : Response Nat).status = true →
      ({ message := "Task successfully completed", status := true,
         data := some 7 } : Response Nat).message =
        "Task successfully completed") ∧
      (({ message := "Task successfully completed", status := true,
          data := some 7 } : Response Nat).status = false →
        ({ message := "Task successfully completed", status := true,
           data := some 7 } : Response Nat).data = none) :=
  invoke_envelope_invariant (fun (_ : String) (_ : Unit) => RunOutcome.ok 7)
    ⟨"t", ()⟩ _ rfl

/-- C10: the handler's catch-all covers only `Exception`: a failure of the
delegated run that is not an `Exception` (a plain `BaseException`, such as
cancellation) propagates out of the handler uncaught instead of being
converted to a soft-failure envelope. -/
theorem invoke_base_exception_propagates {α τ : Type}
    (run : String → τ → RunOutcome α) (request : InvokeTaskRequest τ)
    (m : String)
    (h : run request.task request.team_config = RunOutcome.fatal m) :
    invoke run request = Except.error m := by
  simp [invoke, h]

/-- Witness for C10 at a concrete cancelled request. -/
theorem invoke_base_exception_propagates_witness :
    (fun (_ : String) (_ : Unit) =>
        (RunOutcome.fatal ("cancelled") : RunOutcome Nat)) "t" () =
        RunOutcome.fatal ("cancelled") ∧
      invoke (fun _ _ => (RunOutcome.fatal ("cancelled") : RunOutcome Nat))
        ⟨"t", ()⟩ = Except.error ("cancelled") :=
  ⟨rfl,
    invoke_base_exception_propagates
      (fun _ _ => RunOutcome.fatal ("cancelled")) ⟨"t", ()⟩ ("cancelled") rfl⟩

/-- C4: for any contents of the three imported lookup tables, the catalog
returned by the model-list handler has exactly the four keys `anthropic`,
`ollama`, `openAI`, `azureOpenAI`, in that order, each mapped to a list of
model-identifier strings. -/
theorem list_models_keys {β : Type} (a o p : List (String × β)) :
    dict_keys (list_models a o p) =
      ["anthropic", "ollama", "openAI", "azureOpenAI"] := rfl

/-- C5: in every catalog returned by the model-list handler, the value under
`azureOpenAI` is identical to the value under `openAI`. -/
theorem list_models_openai_azure_alias {β : Type} (a o p : List (String × β)) :
    (list_models a o p).lookup ("azureOpenAI") =
      (list_models a o p).lookup ("openAI") := by
  simp [list_models, List.lookup]

/-- C6: the model-list handler is pure, deterministic and side-effect-free:
run as a state transformer, two calls in arbitrary states `s₁`, `s₂` return
equal catalogs, and each call leaves its state unchanged. -/
theorem list_models_pure {β σ : Type} (a o p : List (String × β))
    (s₁ s₂ : σ) :
    (list_models_st a o p s₁).1 = (list_models_st a o p s₂).1 ∧
      (list_models_st a o p s₁).2 = s₁ ∧ (list_models_st a o p s₂).2 = s₂ :=
  ⟨rfl, rfl, rfl⟩

/-- C7: the model-list handler never fails: in the error-aware embedding,
for every table contents and every prior state it returns a catalog
(`Except.ok`), never an escaping error. -/
theorem list_models_never_fails {β σ : Type} (a o p : List (String × β))
    (s : σ) :
    ∃ out, list_modelsE a o p s = Except.ok out :=
  ⟨_, rfl⟩

/-- C8 counterexample: with concrete tables in which the candidate azure
table's key list differs from the openai table's, the handler's catalog is
not the spec's four-own-tables catalog: the code draws `azureOpenAI` from
the openai table, not from a fourth table of its own. -/
theorem list_models_not_four_own_tables :
    dict_keys ex_azure ≠ dict_keys ex_openai ∧
      list_models ex_anthropic ex_ollama ex_openai ≠
        list_models_spec ex_anthropic ex_ollama ex_openai ex_azure := by
  constructor <;> decide

/-- C8 amended: the catalog is sourced from the three imported lookup
tables; `anthropic`, `ollama` and `openAI` are the ordered key lists of
their own tables, while `azureOpenAI` shares the openai table — the catalog
coincides with the spec's four-table shape exactly when the azure table is
taken to be the openai table itself. -/
theorem list_models_three_tables {β : Type} (a o p : List (String × β)) :
    list_models a o p = list_models_spec a o p p := rfl

end AutogenRoutes
